import Mathlib

/-!
# luafcgid: the pooled Lua state scheduler of `src/main.c`

A shallow embedding of the pool of Lua states kept by `main.c`, of the scans
that `worker` runs over it under `pool_mutex`, of `pool_flush` / `pool_load`,
of the housekeeping pass of `main`, and of `config_load`.

Conventions of the embedding:

* a `lua_State*` is a natural number (the identity of the instance), `NULL`
  is `none`; a `char*` is an `Option String`;
* C integers that only carry status codes are `Int`;
* calls into the Lua library, the file system, the clock and the FastCGI
  transport are external: their results are inputs of the model.
-/

set_option autoImplicit false

namespace Luafcgid

/-! ## Constants -/

/-- The value `stat`, `luaL_loadbuffer` and `lua_pcall` return on success; the
source compares all three with `STATUS_OK`. -/
def STATUS_OK : Int := 0

/-- Modelled from the spec: `main.h` is not part of the sources at hand. The
flag value written into `status` by a dispatcher that reserves a slot; a slot
is busy when its `status` is non-zero. -/
def STATUS_BUSY : Int := 1

/-- Modelled from the spec: `main.h` is not part of the sources at hand. The
initial outcome of every request (NotFound), distinct from every Lua status. -/
def STATUS_404 : Int := 7

/-- Lua 5.1 status code of `lua.h`. -/
def LUA_ERRRUN : Int := 2
/-- Lua 5.1 status code of `lua.h`. -/
def LUA_ERRSYNTAX : Int := 3
/-- Lua 5.1 status code of `lua.h`. -/
def LUA_ERRMEM : Int := 4
/-- Lua 5.1 status code of `lua.h`. -/
def LUA_ERRERR : Int := 5
/-- Lua 5.1 status code of `lauxlib.h`. -/
def LUA_ERRFILE : Int := 6

/-! ## Data model -/

/-- The address of a Lua state. -/
abbrev lua_State := Nat

/-- One pool slot (`vm_pool_t`): the busy flag, the Lua state, the script
name it was loaded from and the time it was loaded. -/
structure vm_pool_t where
  status : Int
  state : Option lua_State
  name : Option String
  load : Int
  deriving DecidableEq, Repr

/-- What `memset(p, 0, sizeof(vm_pool_t))` leaves behind. -/
def vm_pool_t.zero : vm_pool_t := ⟨0, none, none, 0⟩

/-- The slot with `status = STATUS_BUSY` written into it. -/
def vm_pool_t.lock (p : vm_pool_t) : vm_pool_t := { p with status := STATUS_BUSY }

/-- The slot with `status = STATUS_OK` written into it. -/
def vm_pool_t.unlock (p : vm_pool_t) : vm_pool_t := { p with status := STATUS_OK }

/-- C truth value of `pool[i].status`. -/
def vm_pool_t.busy (p : vm_pool_t) : Bool := p.status != 0

/-- C truth value of `pool[i].state`. -/
def vm_pool_t.occupied (p : vm_pool_t) : Bool := p.state.isSome

/-- The part of `struct stat` the program reads. -/
structure file_stat where
  st_isreg : Bool
  st_size : Nat
  st_mtime : Int
  deriving DecidableEq, Repr

/-- The file system as the program sees it: `stat` (absent when it fails) and
whether `fopen(fn, "rb")` succeeds. -/
structure FileSys where
  stat : String → Option file_stat
  fopen : String → Bool

/-- The fields of `config_t` read by the scheduler. -/
structure config_t where
  listen : String
  workers : Int
  states : Int
  sweep : Int
  retries : Int
  deriving DecidableEq, Repr

/-! ## The scans of `worker` -/

/-- One pass `for (i = 0; i < j; i++) if (cond(pool[i])) { pool[i].status =
STATUS_BUSY; break; }`. Returns the final `i` (equal to the length when the
loop ran to its end) and the pool. -/
def scan (cond : vm_pool_t → Bool) : List vm_pool_t → Nat × List vm_pool_t
  | [] => (0, [])
  | p :: ps =>
    if cond p then (0, p.lock :: ps)
    else ((scan cond ps).1 + 1, p :: (scan cond ps).2)

/-- The test of the search loop: the slot holds a state, is not busy, and its
name equals the script (two absent names are equal). -/
def search_match (script : Option String) (p : vm_pool_t) : Bool :=
  (p.occupied && !p.busy) &&
    ((script.isNone && p.name.isNone) ||
      ((script.isSome && p.name.isSome) && script == p.name))

/-- The test of the first loop of the pick block: `!status && !state`. -/
def free_spot (p : vm_pool_t) : Bool := !p.busy && !p.occupied

/-- The test of the eviction loop: `!status`. -/
def inactive (p : vm_pool_t) : Bool := !p.busy

/-- The search loop after its counter is known: `n` is the number of further
scans the `do ... while ((i == j) && (--k > 0))` allows after the coming one.
Returns the final `i`, the pool and the number of scans performed. -/
def search_loop (script : Option String) : Nat → List vm_pool_t → Nat × List vm_pool_t × Nat
  | 0, pool => ((scan (search_match script) pool).1, (scan (search_match script) pool).2, 1)
  | n + 1, pool =>
    let r := scan (search_match script) pool
    if r.1 = pool.length then
      let r2 := search_loop script n r.2
      (r2.1, r2.2.1, r2.2.2 + 1)
    else (r.1, r.2, 1)

/-- The "search for script" loop of `worker` with `k` the initial value of
its counter (`conf->retries + 1`): the body runs once, and again while no slot
was found and `--k > 0`. -/
def search (script : Option String) (k : Int) (pool : List vm_pool_t) :
    Nat × List vm_pool_t × Nat :=
  search_loop script (k - 1).toNat pool

/-- The eviction `do ... while (i == j)` loop; each round is one scan for an
inactive slot, and every failed round (unlock, sleep, lock) costs one unit of
fuel: `none` when the fuel is used up. No other thread runs in this model, so
the pool is the same on retry. -/
def evict_loop : Nat → List vm_pool_t → Option (Nat × List vm_pool_t)
  | 0, pool =>
    if (scan inactive pool).1 = pool.length then none else some (scan inactive pool)
  | fuel + 1, pool =>
    if (scan inactive pool).1 = pool.length then evict_loop fuel (scan inactive pool).2
    else some (scan inactive pool)

/-- The "pick which part of the pool to use" block of `worker`: a scan for a
free spot, then the eviction loop when there is none. -/
def pick (fuel : Nat) (pool : List vm_pool_t) : Option (Nat × List vm_pool_t) :=
  let r := scan free_spot pool
  if r.1 = pool.length then evict_loop fuel r.2 else some r

/-! ## Slots: flush, load, release -/

/-- The function `pool_flush`: closes the Lua state of the slot when there is
one (it leaves the set `live` of open states) and zeroes the whole record with
`memset`, the `status` field included. Returns the slot and the open states. -/
def pool_flush (p : vm_pool_t) (live : List lua_State) : vm_pool_t × List lua_State :=
  (vm_pool_t.zero, match p.state with
    | some L => live.erase L
    | none => live)

/-- The function `pool_load`: stores the state, copies the name when there is
one, and stamps the slot with `time(NULL)`. The `status` field is not written. -/
def pool_load (p : vm_pool_t) (L : lua_State) (name : Option String) (now : Int) : vm_pool_t :=
  { p with
    state := some L
    name := match name with
      | some n => some n
      | none => p.name
    load := now }

/-- Apply `f` to `pool[i]`. -/
def set_slot (pool : List vm_pool_t) (i : Nat) (f : vm_pool_t → vm_pool_t) : List vm_pool_t :=
  match pool[i]? with
  | some p => pool.set i (f p)
  | none => pool

/-- Lines 276-277 of `worker`: `pool_flush(&pool[i]); pool_load(&pool[i], L,
script);`, run after `pool_mutex` was released. -/
def install (i : Nat) (L : lua_State) (script : Option String) (now : Int)
    (pool : List vm_pool_t) (live : List lua_State) : List vm_pool_t × List lua_State :=
  match pool[i]? with
  | some p => (pool.set i (pool_load (pool_flush p live).1 L script now), (pool_flush p live).2)
  | none => (pool, live)

/-- Lines 341-346 of `worker`: `if (i < j) pool[i].status = STATUS_OK;`. -/
def release (i : Nat) (pool : List vm_pool_t) : List vm_pool_t :=
  if i < pool.length then set_slot pool i vm_pool_t.unlock else pool

/-! ## Files and configuration -/

/-- The function `script_load`: a buffer is returned (here: the `stat` record
that describes it) when the file exists, is a regular file of more than zero
bytes and can be opened. `stat` on a `NULL` name fails. -/
def script_load (fsys : FileSys) (fn : Option String) : Option file_stat :=
  match fn with
  | none => none
  | some f =>
    match fsys.stat f with
    | none => none
    | some fs =>
      if fs.st_isreg && fs.st_size != 0 then
        (if fsys.fopen f then some fs else none)
      else none

/-- The outcome of evaluating the configuration file in a fresh Lua state:
whether `lua_open` gave a state, the status of `luaL_loadbuffer` followed by
`lua_pcall`, and the globals as `luaL_getglobal_int` (a value when
`lua_isnumber`) and `luaL_getglobal_str` (a value when `lua_isstring`) see
them. -/
structure ConfigScript where
  lua_open_ok : Bool
  rc : Int
  global_int : String → Option Int
  global_str : String → Option String

/-- The function `luaL_getglobal_int`: `*v` is overwritten when the global is
a number. -/
def luaL_getglobal_int (lua : ConfigScript) (name : String) (v : Int) : Int :=
  match lua.global_int name with
  | some n => n
  | none => v

/-- The function `luaL_getglobal_str`: `*v` is overwritten when the global is
a non-empty string. -/
def luaL_getglobal_str (lua : ConfigScript) (name : String) (v : String) : String :=
  match lua.global_str name with
  | some r => if r.length != 0 then r else v
  | none => v

/-- The function `config_load`; `LISTEN_PATH` is the default of `main.h`.
The result is `none` for the `NULL` returned when `lua_open` fails. The
globals transferred are `listen`, `workers`, `states` and `sweep`. -/
def config_load (LISTEN_PATH : String) (fsys : FileSys) (lua : ConfigScript)
    (fn : Option String) : Option config_t :=
  let cf : config_t := ⟨LISTEN_PATH, 3, 5, 1000, 1⟩
  match script_load fsys fn with
  | none => some cf
  | some _ =>
    if !lua.lua_open_ok then none
    else if lua.rc = STATUS_OK then
      some { cf with
        listen := luaL_getglobal_str lua "listen" cf.listen
        workers := luaL_getglobal_int lua "workers" cf.workers
        states := luaL_getglobal_int lua "states" cf.states
        sweep := luaL_getglobal_int lua "sweep" cf.sweep }
    else some cf

/-! ## The housekeeping pass -/

/-- The test of the housekeeping loop of `main`: the slot holds a state, has a
name and is not busy, `stat` on the name succeeds and the modification time is
greater than the load time. -/
def stale (fsys : FileSys) (p : vm_pool_t) : Bool :=
  (p.occupied && p.name.isSome && !p.busy) &&
    (match p.name with
      | some n =>
        (match fsys.stat n with
          | some fs => decide (fs.st_mtime > p.load)
          | none => false)
      | none => false)

/-- The housekeeping loop of `main` from slot index `i` on, under one hold of
`pool_mutex`. Returns the pool, the open Lua states and the indexes reported
as "has gone stale", in order. -/
def sweep_from (fsys : FileSys) : Nat → List vm_pool_t → List lua_State →
    List vm_pool_t × List lua_State × List Nat
  | _, [], live => ([], live, [])
  | i, p :: ps, live =>
    if stale fsys p then
      let r := sweep_from fsys (i + 1) ps (pool_flush p live).2
      ((pool_flush p live).1 :: r.1, r.2.1, i :: r.2.2)
    else
      let r := sweep_from fsys (i + 1) ps live
      (p :: r.1, r.2.1, r.2.2)

/-- One housekeeping pass over the whole pool. -/
def sweep (fsys : FileSys) (pool : List vm_pool_t) (live : List lua_State) :
    List vm_pool_t × List lua_State × List Nat :=
  sweep_from fsys 0 pool live

/-! ## The Lua state as the dispatcher sees it -/

/-- A Lua value as far as the C API tests of `worker` distinguish them. A
number carries the text `lua_tostring` converts it to. -/
inductive LuaValue where
  | nil
  | boolean (b : Bool)
  | number (text : String)
  | string (s : String)
  | table
  | function
  | userdata
  deriving DecidableEq, Repr

/-- The test `lua_isfunction`. -/
def lua_isfunction : LuaValue → Bool
  | .function => true
  | _ => false

/-- The test `lua_isstring` of the Lua C API: true for a string and for a
number (which is always convertible to a string). -/
def lua_isstring : LuaValue → Bool
  | .string _ => true
  | .number _ => true
  | _ => false

/-- The conversion `lua_tostring`: the text of a string or of a number, and
`NULL` (`none`) for every other value. -/
def lua_tostring : LuaValue → Option String
  | .string s => some s
  | .number text => some text
  | _ => none

/-- The C string that starts at the first byte of a Lua string: the bytes
before the first NUL. -/
def c_str (s : String) : String :=
  String.mk (s.data.takeWhile (fun c => c != Char.ofNat 0))

/-- The size of `char errmsg[1024]` of `worker`. -/
def ERRMSG_SIZE : Nat := 1024

/-- The call `strcpy(errmsg, src)`: defined when `src` is not `NULL` and the C
string with its closing NUL fits into `errmsg`; `none` stands for the
undefined behaviour of a copy through `NULL` or past the end of the buffer. -/
def strcpy_errmsg (src : Option String) : Option String :=
  match src with
  | none => none
  | some s => if (c_str s).utf8ByteSize + 1 ≤ ERRMSG_SIZE then some (c_str s) else none

/-- Everything one iteration of `worker` obtains from outside the pool: the
`SCRIPT_FILENAME` parameter, the file system, whether `lua_open` gives a
state, the status of `luaL_loadbuffer` and of the `lua_pcall` that runs the
chunk with the value they leave on the stack on failure, the global `handler`
of the state in use, the status of `lua_pcall(L, 0, 1, 0)` with the value it
leaves at index -1, and `time(NULL)`. -/
structure Env where
  script : Option String
  fsys : FileSys
  lua_open_ok : Bool
  loadbuffer_rc : Int
  chunk_rc : Int
  load_err : LuaValue
  handler : LuaValue
  call_rc : Int
  call_top : LuaValue
  now : Int

/-- Modelled from the spec: the label macros of `main.h` (`LUA_ERRRUN_STR`
and the others), one per error kind of the taxonomy: RuntimeError is
`LUA_ERRRUN_STR`, SyntaxError `LUA_ERRSYNTAX_STR`, MemoryError
`LUA_ERRMEM_STR`, UnknownError `ERRUNKNOWN_STR`. -/
inductive errtype_t where
  | LUA_ERRFILE_STR
  | LUA_ERRRUN_STR
  | LUA_ERRSYNTAX_STR
  | LUA_ERRMEM_STR
  | ERRUNKNOWN_STR
  deriving DecidableEq, Repr

/-- Modelled from the spec: the response macros of `main.h`: success with a
body, not-found with the script name, failure with a label and a message. -/
inductive Response where
  | HTTP_200 (body : String)
  | HTTP_404 (script : Option String)
  | HTTP_500 (errtype : errtype_t) (errmsg : String)
  deriving DecidableEq, Repr

/-- Lines 289-302 of `worker`, entered with `rc == STATUS_OK`: look up the
global `handler`, call it, check the result. Returns `rc` and the value at
index -1. -/
def invoke (env : Env) : Int × LuaValue :=
  if lua_isfunction env.handler then
    if !lua_isstring env.call_top then
      (LUA_ERRRUN, LuaValue.string "handler() must return string")
    else (env.call_rc, env.call_top)
  else (LUA_ERRRUN, LuaValue.string "handler() function not found")

/-- The `switch (rc)` of `worker`: the label copied into `errtype`. -/
def errtype_of (rc : Int) : errtype_t :=
  if rc = LUA_ERRFILE then errtype_t.LUA_ERRFILE_STR
  else if rc = LUA_ERRRUN then errtype_t.LUA_ERRRUN_STR
  else if rc = LUA_ERRSYNTAX then errtype_t.LUA_ERRSYNTAX_STR
  else if rc = LUA_ERRMEM then errtype_t.LUA_ERRMEM_STR
  else errtype_t.ERRUNKNOWN_STR

/-- The `switch (rc)` of `worker`: `errmsg` starts empty and receives
`strcpy(errmsg, lua_tostring(L, -1))` in the cases `LUA_ERRRUN` and
`LUA_ERRSYNTAX`; `none` when that copy is undefined. -/
def errmsg_of (rc : Int) (top : LuaValue) : Option String :=
  if rc = LUA_ERRRUN ∨ rc = LUA_ERRSYNTAX then strcpy_errmsg (lua_tostring top) else some ""

/-- Lines 305-337 of `worker`: the `switch`, then the response written for
`rc`; `none` when the `switch` runs into undefined behaviour, or when
`HTTP_200` would be handed the `NULL` of `lua_tostring` (which `worker` never
does: `rc == STATUS_OK` there only after `lua_isstring` held). -/
def respond (script : Option String) (rc : Int) (top : LuaValue) : Option Response :=
  match errmsg_of rc top with
  | none => none
  | some errmsg =>
    if rc = STATUS_OK then
      (match lua_tostring top with
        | some body => some (Response.HTTP_200 body)
        | none => none)
    else if rc = STATUS_404 then some (Response.HTTP_404 script)
    else some (Response.HTTP_500 (errtype_of rc) errmsg)

/-- Lines 287-337 of `worker`: the handler is invoked when `rc == STATUS_OK`
and the outcome is mapped to a response. -/
def handle (env : Env) (rc : Int) (top : LuaValue) : Option Response :=
  if rc = STATUS_OK then respond env.script (invoke env).1 (invoke env).2
  else respond env.script rc top

/-! ## One iteration of `worker`, run on its own -/

/-- The pool together with the bookkeeping of the external effects: the Lua
states opened and not yet closed, and counters of the calls of `lua_open`
(the next state is numbered by it), of `script_load` by a dispatcher and of
`luaL_loadbuffer` by a dispatcher. -/
structure World where
  pool : List vm_pool_t
  live : List lua_State
  opened : Nat
  reads : Nat
  compiles : Nat
  deriving DecidableEq, Repr

/-- The dispatcher at line 286 of `worker`: either the thread has returned
because `lua_open` failed, or it goes on with `rc`, the slot index `i`
(`i == j` when no slot is reserved) and the value at index -1 of its state. -/
inductive Acquire where
  | died (w : World)
  | ready (w : World) (rc : Int) (i : Nat) (top : LuaValue)
  deriving DecidableEq, Repr

/-- The status `rc` after lines 227-236: `STATUS_404` without a buffer, else
the status of `luaL_loadbuffer`, else that of `lua_pcall`. -/
def load_rc (env : Env) : Int :=
  match script_load env.fsys env.script with
  | none => STATUS_404
  | some _ => if env.loadbuffer_rc = STATUS_OK then env.chunk_rc else env.loadbuffer_rc

/-- Lines 192-285 of `worker`: search, and on a miss open a state, load the
script and, when that succeeded, pick a slot and install the state. `none`
when the eviction loop does not come to an end within `fuel` rounds. -/
def acquire (conf : config_t) (fuel : Nat) (env : Env) (w : World) : Option Acquire :=
  let s := search env.script (conf.retries + 1) w.pool
  if s.1 < w.pool.length then
    some (Acquire.ready { w with pool := s.2.1 } STATUS_OK s.1 LuaValue.nil)
  else if !env.lua_open_ok then
    some (Acquire.died { w with pool := s.2.1 })
  else
    let L := w.opened
    let compiles := if (script_load env.fsys env.script).isSome then w.compiles + 1 else w.compiles
    if load_rc env = STATUS_OK then
      match pick fuel s.2.1 with
      | none => none
      | some r =>
        let q := install r.1 L env.script env.now r.2 (L :: w.live)
        some (Acquire.ready ⟨q.1, q.2, w.opened + 1, w.reads + 1, compiles⟩ STATUS_OK r.1 LuaValue.nil)
    else
      some (Acquire.ready ⟨s.2.1, L :: w.live, w.opened + 1, w.reads + 1, compiles⟩
        (load_rc env) w.pool.length env.load_err)

/-- How one iteration of the `for (;;)` of `worker` ends: the thread returned
(`lua_open` failed); or the `strcpy` into `errmsg` was undefined (through
`NULL`, or past the end of the buffer), which happens before the response and
the release, with the world and the slot index `i` as they were at that point;
or the iteration is complete: the response was written and the slot released. -/
inductive IterResult where
  | died (w : World)
  | crashed (w : World) (i : Nat)
  | done (w : World) (resp : Response) (i : Nat)
  deriving DecidableEq, Repr

/-- One iteration of the `for (;;)` of `worker` after the accept. -/
def worker_iter (conf : config_t) (fuel : Nat) (env : Env) (w : World) : Option IterResult :=
  match acquire conf fuel env w with
  | none => none
  | some (Acquire.died w1) => some (IterResult.died w1)
  | some (Acquire.ready w1 rc i top) =>
    match handle env rc top with
    | none => some (IterResult.crashed w1 i)
    | some resp => some (IterResult.done { w1 with pool := release i w1.pool } resp i)

/-- The Lua states held by the slots of a pool. -/
def engines (pool : List vm_pool_t) : List lua_State :=
  pool.filterMap vm_pool_t.state

/-! ## The step model: dispatchers and the sweeper interleaved

Every hold of `pool_mutex`, and the unlocked flush and install of lines
276-277, is one atomic step of one dispatcher or of the sweeper. -/

/-- Where a dispatcher stands between two steps. -/
inductive PC where
  /-- Waiting in accept. -/
  | idle
  /-- In the search loop with counter `k`, about to lock for a scan. -/
  | searching (script : Option String) (k : Int)
  /-- The search loop ended with `i == j`; about to open and load a state. -/
  | missed (script : Option String)
  /-- A fresh state `L` is loaded (`rc == STATUS_OK`); about to lock and pick. -/
  | loaded (L : lua_State) (script : Option String)
  /-- Every slot was busy; sleeping before the next round of the eviction loop. -/
  | spinning (L : lua_State) (script : Option String)
  /-- Slot `i` was marked in the pick block; about to flush it and install `L`. -/
  | picked (i : Nat) (L : lua_State) (script : Option String)
  /-- Running the handler of the state in slot `i` and answering; about to
  lock and release the slot. -/
  | using (i : Nat)
  deriving DecidableEq, Repr

/-- The shared pool, the open Lua states and the position of every dispatcher. -/
structure Sys where
  pool : List vm_pool_t
  live : List lua_State
  opened : Nat
  pcs : List PC
  deriving DecidableEq, Repr

/-- The atomic steps. -/
inductive Action where
  /-- Dispatcher `d` accepts a request for `script`. -/
  | accept (d : Nat) (script : Option String)
  /-- One locked scan of the search loop. -/
  | scan (d : Nat)
  /-- Lines 217-236, outside the lock; `ok` tells whether `rc == STATUS_OK`. -/
  | load (d : Nat) (ok : Bool)
  /-- One hold of the lock in the pick block. -/
  | pick (d : Nat)
  /-- Lines 276-277, outside the lock. -/
  | install (d : Nat) (now : Int)
  /-- Lines 341-346. -/
  | release (d : Nat)
  /-- One housekeeping pass. -/
  | sweep (fsys : FileSys)

/-- The effect of one atomic step; `none` when the dispatcher is not at the
point where the step starts. -/
def step (conf : config_t) (a : Action) (s : Sys) : Option Sys :=
  match a with
  | Action.accept d script =>
    match s.pcs[d]? with
    | some PC.idle => some { s with pcs := s.pcs.set d (PC.searching script (conf.retries + 1)) }
    | _ => none
  | Action.scan d =>
    match s.pcs[d]? with
    | some (PC.searching script k) =>
      let r := scan (search_match script) s.pool
      if r.1 < s.pool.length then
        some { s with pool := r.2, pcs := s.pcs.set d (PC.using r.1) }
      else if k - 1 > 0 then
        some { s with pool := r.2, pcs := s.pcs.set d (PC.searching script (k - 1)) }
      else some { s with pool := r.2, pcs := s.pcs.set d (PC.missed script) }
    | _ => none
  | Action.load d ok =>
    match s.pcs[d]? with
    | some (PC.missed script) =>
      some { s with
        live := s.opened :: s.live
        opened := s.opened + 1
        pcs := s.pcs.set d (if ok then PC.loaded s.opened script else PC.idle) }
    | _ => none
  | Action.pick d =>
    match s.pcs[d]? with
    | some (PC.loaded L script) =>
      let r := scan free_spot s.pool
      if r.1 = s.pool.length then
        let r2 := scan inactive r.2
        if r2.1 = s.pool.length then
          some { s with pool := r2.2, pcs := s.pcs.set d (PC.spinning L script) }
        else some { s with pool := r2.2, pcs := s.pcs.set d (PC.picked r2.1 L script) }
      else some { s with pool := r.2, pcs := s.pcs.set d (PC.picked r.1 L script) }
    | some (PC.spinning L script) =>
      let r := scan inactive s.pool
      if r.1 = s.pool.length then
        some { s with pool := r.2, pcs := s.pcs.set d (PC.spinning L script) }
      else some { s with pool := r.2, pcs := s.pcs.set d (PC.picked r.1 L script) }
    | _ => none
  | Action.install d now =>
    match s.pcs[d]? with
    | some (PC.picked i L script) =>
      let q := install i L script now s.pool s.live
      some { s with pool := q.1, live := q.2, pcs := s.pcs.set d (PC.using i) }
    | _ => none
  | Action.release d =>
    match s.pcs[d]? with
    | some (PC.using i) =>
      some { s with pool := release i s.pool, pcs := s.pcs.set d PC.idle }
    | _ => none
  | Action.sweep fsys =>
    some { s with pool := (sweep fsys s.pool s.live).1, live := (sweep fsys s.pool s.live).2.1 }

/-- A run of atomic steps. -/
def run (conf : config_t) : List Action → Sys → Option Sys
  | [], s => some s
  | a :: as, s =>
    match step conf a s with
    | some s1 => run conf as s1
    | none => none

/-- The all-empty pool of `n` slots with `N` dispatchers waiting in accept. -/
def Sys.init (n N : Nat) : Sys :=
  ⟨List.replicate n vm_pool_t.zero, [], 0, List.replicate N PC.idle⟩

/-- Whether a dispatcher at this point has slot `i` reserved: from the step
that marked it to the step that releases it. -/
def PC.holds (i : Nat) : PC → Bool
  | PC.picked i1 _ _ => i1 == i
  | PC.using i1 => i1 == i
  | _ => false

/-- The number of dispatchers that have slot `i` reserved. -/
def Sys.holders (s : Sys) (i : Nat) : Nat :=
  (s.pcs.filter (PC.holds i)).length

/-- The defaults of `config_load`. -/
def default_conf : config_t := ⟨"", 3, 5, 1000, 1⟩

/-- The all-empty pool of `n` slots (what `main` allocates and zeroes) before
any Lua state was opened. -/
def World.init (n : Nat) : World := ⟨List.replicate n vm_pool_t.zero, [], 0, 0, 0⟩

/-- A file system in which every name is a regular file of 64 bytes with
modification time 0 that can be opened. -/
def fs_all : FileSys := ⟨fun _ => some ⟨true, 64, 0⟩, fun _ => true⟩

/-- A file system in which `stat` fails on every name. -/
def fs_none : FileSys := ⟨fun _ => none, fun _ => false⟩

/-- A request for `script` at time `now` whose file loads and runs without
error and whose `handler` is a function that returns `result` without error. -/
def Env.serving (script : String) (result : LuaValue) (now : Int) : Env :=
  ⟨some script, fs_all, true, 0, 0, LuaValue.nil, LuaValue.function, 0, result, now⟩

/-- A request for `script` whose file loads and runs without error but
defines no `handler` (the global is `nil`). -/
def Env.no_handler (script : String) (now : Int) : Env :=
  ⟨some script, fs_all, true, 0, 0, LuaValue.nil, LuaValue.nil, 0, LuaValue.nil, now⟩

/-- A request for `script` whose file loads, but whose chunk stops with the
error value `err` when it is run (`lua_pcall` gives `LUA_ERRRUN`). -/
def Env.chunk_error (script : String) (err : LuaValue) (now : Int) : Env :=
  ⟨some script, fs_all, true, 0, LUA_ERRRUN, err, LuaValue.nil, 0, LuaValue.nil, now⟩

/-- A request for `script` whose file loads and runs without error and whose
`handler` is a function that stops with the error message `msg`. -/
def Env.handler_error (script : String) (msg : String) (now : Int) : Env :=
  ⟨some script, fs_all, true, 0, 0, LuaValue.nil, LuaValue.function, LUA_ERRRUN,
    LuaValue.string msg, now⟩

/-- An error message of 1024 bytes, one more than `errmsg` can take in front
of the closing NUL. -/
def long_message : String := String.mk (List.replicate 1024 'x')

/-- A request for `script` when no such file exists. -/
def Env.no_file (script : String) (now : Int) : Env :=
  ⟨some script, fs_none, true, 0, 0, LuaValue.nil, LuaValue.nil, 0, LuaValue.nil, now⟩

/-- A configuration file that runs without error and sets the global
`retries` to `r` and nothing else. -/
def config_with_retries (r : Int) : ConfigScript :=
  ⟨true, 0, fun name => if name = "retries" then some r else none, fun _ => none⟩

end Luafcgid


namespace Luafcgid

/-! ## Lemmas on the scans -/

theorem scan_fst_le (cond : vm_pool_t → Bool) (pool : List vm_pool_t) :
    (scan cond pool).1 ≤ pool.length := by
  induction pool with
  | nil => simp [scan]
  | cons p ps ih =>
    by_cases h : cond p = true
    · simp [scan, h]
    · simp [scan, h, ih]

theorem scan_before (cond : vm_pool_t → Bool) (pool : List vm_pool_t) (m : Nat) (q : vm_pool_t)
    (hm : m < (scan cond pool).1) (hq : pool[m]? = some q) : cond q = false := by
  induction pool generalizing m with
  | nil => simp at hq
  | cons p ps ih =>
    by_cases h : cond p = true
    · simp [scan, h] at hm
    · simp [scan, h] at hm
      cases m with
      | zero =>
        simp at hq
        subst hq
        simpa using h
      | succ m =>
        simp at hq
        exact ih m (by omega) hq

theorem scan_miss (cond : vm_pool_t → Bool) (pool : List vm_pool_t)
    (h : (scan cond pool).1 = pool.length) : (scan cond pool).2 = pool := by
  induction pool with
  | nil => simp [scan]
  | cons p ps ih =>
    by_cases hc : cond p = true
    · simp [scan, hc] at h
    · simp [scan, hc] at h ⊢
      exact ih h

theorem scan_hit (cond : vm_pool_t → Bool) (pool : List vm_pool_t)
    (h : (scan cond pool).1 < pool.length) :
    ∃ p, pool[(scan cond pool).1]? = some p ∧ cond p = true ∧
      (scan cond pool).2 = pool.set (scan cond pool).1 p.lock := by
  induction pool with
  | nil => simp at h
  | cons p ps ih =>
    by_cases hc : cond p = true
    · exact ⟨p, by simp [scan, hc]⟩
    · simp [scan, hc] at h
      obtain ⟨q, hq, hcq, hset⟩ := ih h
      refine ⟨q, ?_⟩
      simp only [scan, hc]
      simp [hq, hcq, ← hset]

theorem scan_found (cond : vm_pool_t → Bool) (pool : List vm_pool_t) (m : Nat) (q : vm_pool_t)
    (hq : pool[m]? = some q) (hc : cond q = true) : (scan cond pool).1 < pool.length := by
  have hm : m < pool.length := by
    rcases Nat.lt_or_ge m pool.length with h | h
    · exact h
    · rw [List.getElem?_eq_none h] at hq
      cases hq
  rcases Nat.lt_or_ge m (scan cond pool).1 with h | h
  · rw [scan_before cond pool m q h hq] at hc
    cases hc
  · omega

theorem scan_length (cond : vm_pool_t → Bool) (pool : List vm_pool_t) :
    (scan cond pool).2.length = pool.length := by
  rcases Nat.lt_or_ge (scan cond pool).1 pool.length with h | h
  · obtain ⟨p, _, _, hset⟩ := scan_hit cond pool h
    rw [hset]
    simp
  · rw [scan_miss cond pool (Nat.le_antisymm (scan_fst_le cond pool) h)]

/-! ## The search loop -/

theorem search_match_iff (script : Option String) (p : vm_pool_t) :
    search_match script p = true ↔ (p.state ≠ none ∧ p.status = 0 ∧ p.name = script) := by
  rcases p with ⟨st, state, name, load⟩
  cases state <;> cases name <;> cases script <;>
    simp [search_match, vm_pool_t.occupied, vm_pool_t.busy]
  intro _
  exact eq_comm

theorem search_loop_eq_scan (script : Option String) (n : Nat) (pool : List vm_pool_t) :
    (search_loop script n pool).1 = (scan (search_match script) pool).1 ∧
      (search_loop script n pool).2.1 = (scan (search_match script) pool).2 := by
  induction n with
  | zero => simp [search_loop]
  | succ n ih =>
    by_cases h : (scan (search_match script) pool).1 = pool.length
    · have hp := scan_miss _ pool h
      simp only [search_loop, h, if_true, hp]
      rw [hp, h] at ih
      exact ih
    · simp [search_loop, h]

theorem search_loop_scans (script : Option String) (n : Nat) (pool : List vm_pool_t)
    (h : (scan (search_match script) pool).1 = pool.length) :
    (search_loop script n pool).2.2 = n + 1 := by
  induction n with
  | zero => simp [search_loop]
  | succ n ih =>
    have hp := scan_miss _ pool h
    simp only [search_loop, h, if_true, hp]
    rw [ih]

/-- Claim C3 (`acquireMatching`, the "search for script" loop of `worker`). For
every pool, every requested script (possibly absent) and every attempt count
`k ≥ 1`: when some slot holds a state, is not busy and has a name equal to the
requested one (two absent names are equal), the loop ends with `i` the least
index of such a slot (a hit, `i < j`) and the pool differs from the original
only in that slot `i` has `status = STATUS_BUSY`; when there is no such slot
the loop ends with `i == j` (a miss) after `k` scans and the pool is
unchanged. -/
theorem C3_acquireMatching (pool : List vm_pool_t) (script : Option String) (k : Int)
    (hk : 1 ≤ k) :
    ((∃ (m : Nat) (q : vm_pool_t), pool[m]? = some q ∧ q.state ≠ none ∧ q.status = 0 ∧ q.name = script) →
      ∃ p, (search script k pool).1 < pool.length ∧
        pool[(search script k pool).1]? = some p ∧
        (p.state ≠ none ∧ p.status = 0 ∧ p.name = script) ∧
        (∀ (m : Nat) (q : vm_pool_t), m < (search script k pool).1 → pool[m]? = some q →
          ¬ (q.state ≠ none ∧ q.status = 0 ∧ q.name = script)) ∧
        (search script k pool).2.1 =
          pool.set (search script k pool).1 { p with status := STATUS_BUSY }) ∧
    ((¬ ∃ (m : Nat) (q : vm_pool_t), pool[m]? = some q ∧ q.state ≠ none ∧ q.status = 0 ∧ q.name = script) →
      (search script k pool).1 = pool.length ∧ (search script k pool).2.1 = pool ∧
        ((search script k pool).2.2 : Int) = k) := by
  obtain ⟨h1, h2⟩ := search_loop_eq_scan script (k - 1).toNat pool
  have h3 := search_loop_scans script (k - 1).toNat pool
  unfold search
  rw [h1, h2]
  constructor
  · rintro ⟨m, q, hq, hmatch⟩
    have hlt := scan_found (search_match script) pool m q hq ((search_match_iff script q).2 hmatch)
    obtain ⟨p, hp, hc, hset⟩ := scan_hit (search_match script) pool hlt
    refine ⟨p, hlt, hp, (search_match_iff script p).1 hc, ?_, hset⟩
    intro m1 q1 hm1 hq1 hmatch1
    have := scan_before (search_match script) pool m1 q1 hm1 hq1
    rw [(search_match_iff script q1).2 hmatch1] at this
    cases this
  · intro hno
    have hle := scan_fst_le (search_match script) pool
    have heq : (scan (search_match script) pool).1 = pool.length := by
      rcases Nat.lt_or_ge (scan (search_match script) pool).1 pool.length with h | h
      · obtain ⟨p, hp, hc, _⟩ := scan_hit (search_match script) pool h
        exact absurd ⟨_, p, hp, (search_match_iff script p).1 hc⟩ hno
      · omega
    refine ⟨heq, scan_miss _ pool heq, ?_⟩
    rw [h3 heq]
    omega

/-- The theorem `C3_acquireMatching` at a pool of three slots in which slot 0
is busy and slots 1 and 2 both match: the search ends at index 1. -/
theorem C3_acquireMatching_witness :
    (search (some "a.ok") 2
      [⟨1, some 0, some "a.ok", 5⟩, ⟨0, some 1, some "a.ok", 6⟩, ⟨0, some 2, some "a.ok", 7⟩]).1 = 1 ∧
    (search (some "a.ok") 2
      [⟨1, some 0, some "a.ok", 5⟩, ⟨0, some 1, some "a.ok", 6⟩, ⟨0, some 2, some "a.ok", 7⟩]).2.1 =
      [⟨1, some 0, some "a.ok", 5⟩, ⟨1, some 1, some "a.ok", 6⟩, ⟨0, some 2, some "a.ok", 7⟩] := by
  obtain ⟨p, _, hp, _, _, hset⟩ := (C3_acquireMatching
    [⟨1, some 0, some "a.ok", 5⟩, ⟨0, some 1, some "a.ok", 6⟩, ⟨0, some 2, some "a.ok", 7⟩]
    (some "a.ok") 2 (by decide)).1 ⟨1, ⟨0, some 1, some "a.ok", 6⟩, by decide⟩
  have h1 : (search (some "a.ok") 2
      [⟨1, some 0, some "a.ok", 5⟩, ⟨0, some 1, some "a.ok", 6⟩, ⟨0, some 2, some "a.ok", 7⟩]).1 = 1 := by
    decide
  rw [h1] at hp hset
  simp at hp
  subst hp
  exact ⟨h1, by rw [hset]; decide⟩

/-! ## The pick block -/

theorem free_spot_iff (p : vm_pool_t) :
    free_spot p = true ↔ (p.state = none ∧ p.status = 0) := by
  rcases p with ⟨st, state, name, load⟩
  cases state <;> simp [free_spot, vm_pool_t.occupied, vm_pool_t.busy]

theorem inactive_iff (p : vm_pool_t) : inactive p = true ↔ p.status = 0 := by
  simp [inactive, vm_pool_t.busy]

theorem evict_loop_hit (fuel : Nat) (pool : List vm_pool_t)
    (h : (scan inactive pool).1 < pool.length) :
    evict_loop fuel pool = some (scan inactive pool) := by
  have hne : (scan inactive pool).1 ≠ pool.length := by omega
  cases fuel <;> simp [evict_loop, hne]

/-- Claim C4 (`acquireFreeOrEvict`, the "pick which part of the pool to use"
block of `worker`). For every pool with at least one slot that is not busy,
the block ends (whatever the fuel) with an index `i` such that: slot `i` was
not busy before; the pool afterwards is the pool before with `status =
STATUS_BUSY` written into slot `i` and nothing else changed; when a slot that
is neither occupied nor busy exists, `i` is the least index of such a slot;
otherwise `i` is the least index of a slot that is not busy. -/
theorem C4_acquireFreeOrEvict (pool : List vm_pool_t) (fuel : Nat)
    (h : ∃ (m : Nat) (q : vm_pool_t), pool[m]? = some q ∧ q.status = 0) :
    ∃ (i : Nat) (p : vm_pool_t),
      pick fuel pool = some (i, pool.set i { p with status := STATUS_BUSY }) ∧
      pool[i]? = some p ∧ p.status = 0 ∧
      ((∃ (m : Nat) (q : vm_pool_t), pool[m]? = some q ∧ q.state = none ∧ q.status = 0) →
        p.state = none ∧
        ∀ (m : Nat) (q : vm_pool_t), m < i → pool[m]? = some q →
          ¬ (q.state = none ∧ q.status = 0)) ∧
      ((¬ ∃ (m : Nat) (q : vm_pool_t), pool[m]? = some q ∧ q.state = none ∧ q.status = 0) →
        ∀ (m : Nat) (q : vm_pool_t), m < i → pool[m]? = some q → q.status ≠ 0) := by
  obtain ⟨m0, q0, hq0, hst0⟩ := h
  rcases Nat.lt_or_ge (scan free_spot pool).1 pool.length with hfree | hfree
  · -- a free spot exists
    obtain ⟨p, hp, hc, hset⟩ := scan_hit free_spot pool hfree
    have hpf := (free_spot_iff p).1 hc
    refine ⟨(scan free_spot pool).1, p, ?_, hp, hpf.2, ?_, ?_⟩
    · have hne : (scan free_spot pool).1 ≠ pool.length := by omega
      simp only [pick, hne, if_false]
      exact congrArg some (Prod.ext rfl hset)
    · intro _
      refine ⟨hpf.1, ?_⟩
      intro m q hm hq hfq
      have := scan_before free_spot pool m q hm hq
      rw [(free_spot_iff q).2 hfq] at this
      cases this
    · intro hno
      exact absurd ⟨_, p, hp, hpf⟩ hno
  · -- no free spot: the eviction loop
    have heq : (scan free_spot pool).1 = pool.length :=
      Nat.le_antisymm (scan_fst_le free_spot pool) hfree
    have hlt := scan_found inactive pool m0 q0 hq0 ((inactive_iff q0).2 hst0)
    obtain ⟨p, hp, hc, hset⟩ := scan_hit inactive pool hlt
    refine ⟨(scan inactive pool).1, p, ?_, hp, (inactive_iff p).1 hc, ?_, ?_⟩
    · simp only [pick, heq, if_true, scan_miss free_spot pool heq]
      rw [evict_loop_hit fuel pool hlt]
      exact congrArg some (Prod.ext rfl hset)
    · rintro ⟨m, q, hq, hfq⟩
      have := scan_found free_spot pool m q hq ((free_spot_iff q).2 hfq)
      omega
    · intro _ m q hm hq hst
      have := scan_before inactive pool m q hm hq
      rw [(inactive_iff q).2 hst] at this
      cases this

/-- The theorem `C4_acquireFreeOrEvict` at scenario S4: a pool of size 1 whose
slot 0 holds `a.ok` idle; the block returns slot 0 and marks it busy. -/
theorem C4_acquireFreeOrEvict_witness :
    pick 0 [⟨0, some 0, some "a.ok", 5⟩] = some (0, [⟨1, some 0, some "a.ok", 5⟩]) := by
  obtain ⟨i, p, hpick, hp, _, _, _⟩ :=
    C4_acquireFreeOrEvict [⟨0, some 0, some "a.ok", 5⟩] 0 ⟨0, ⟨0, some 0, some "a.ok", 5⟩, by decide⟩
  have hi : i = 0 := by
    rcases Nat.eq_zero_or_pos i with h0 | h0
    · exact h0
    · rw [List.getElem?_eq_none (by simpa using h0)] at hp
      cases hp
  subst hi
  simp at hp
  subst hp
  rw [hpick]
  rfl

/-! ## The housekeeping pass -/

theorem stale_iff (fsys : FileSys) (p : vm_pool_t) :
    stale fsys p = true ↔
      (p.state ≠ none ∧ p.status = 0 ∧
        ∃ (n : String) (fs : file_stat),
          p.name = some n ∧ fsys.stat n = some fs ∧ p.load < fs.st_mtime) := by
  rcases p with ⟨st, state, name, load⟩
  cases state <;> cases name with
  | none => simp [stale, vm_pool_t.occupied, vm_pool_t.busy]
  | some n =>
    cases hs : fsys.stat n <;> simp [stale, vm_pool_t.occupied, vm_pool_t.busy, hs]

theorem sweep_from_spec (fsys : FileSys) (pool : List vm_pool_t) :
    ∀ (i : Nat) (live : List lua_State),
      (∀ x ∈ (sweep_from fsys i pool live).2.2, i ≤ x) ∧
      ∀ (m : Nat) (p : vm_pool_t), pool[m]? = some p →
        ((i + m ∈ (sweep_from fsys i pool live).2.2 ↔ stale fsys p = true) ∧
          (sweep_from fsys i pool live).1[m]? =
            some (if stale fsys p = true then vm_pool_t.zero else p)) := by
  induction pool with
  | nil => intro i live; simp [sweep_from]
  | cons a as ih =>
    intro i live
    by_cases ha : stale fsys a = true
    · obtain ⟨hge, hrest⟩ := ih (i + 1) (pool_flush a live).2
      refine ⟨?_, ?_⟩
      · intro x hx
        simp only [sweep_from, ha, if_true, List.mem_cons] at hx
        rcases hx with hx | hx
        · omega
        · have := hge x hx
          omega
      · intro m p hp
        cases m with
        | zero =>
          simp at hp
          subst hp
          simp [sweep_from, ha, pool_flush]
        | succ m =>
          simp at hp
          obtain ⟨h1, h2⟩ := hrest m p hp
          have hidx : i + (m + 1) = i + 1 + m := by omega
          simp only [sweep_from, ha, if_true, List.mem_cons, hidx]
          refine ⟨?_, by simpa using h2⟩
          rw [← h1]
          constructor
          · rintro (h | h)
            · omega
            · exact h
          · intro h
            exact Or.inr h
    · obtain ⟨hge, hrest⟩ := ih (i + 1) live
      refine ⟨?_, ?_⟩
      · intro x hx
        simp only [sweep_from, ha] at hx
        have := hge x hx
        omega
      · intro m p hp
        cases m with
        | zero =>
          simp at hp
          subst hp
          simp only [sweep_from, ha]
          refine ⟨?_, by simp⟩
          simp only [Nat.add_zero, if_false, iff_false, Bool.false_eq_true]
          intro hmem
          have := hge i hmem
          omega
        | succ m =>
          simp at hp
          obtain ⟨h1, h2⟩ := hrest m p hp
          have hidx : i + (m + 1) = i + 1 + m := by omega
          simp only [sweep_from, ha, hidx]
          exact ⟨h1, by simpa using h2⟩

theorem sweep_from_length (fsys : FileSys) (pool : List vm_pool_t) :
    ∀ (i : Nat) (live : List lua_State), (sweep_from fsys i pool live).1.length = pool.length := by
  induction pool with
  | nil => intro i live; simp [sweep_from]
  | cons a as ih =>
    intro i live
    by_cases ha : stale fsys a = true
    · simp [sweep_from, ha, ih]
    · simp [sweep_from, ha, ih]

/-- Claim C5 (`sweepStale`, the housekeeping pass of `main`). For every pool and
every file system, one pass keeps the number of slots and flushes slot `i`
(reports it as gone stale) if and only if before the pass the slot was
occupied, not busy, had a name, `stat` on the name succeeded and the
modification time was strictly newer than the load time. A flushed slot has
no engine, no name, a zero timestamp and a zero status afterwards; every other
slot, and in particular every busy slot, is exactly as it was. -/
theorem C5_sweepStale (fsys : FileSys) (pool : List vm_pool_t) (live : List lua_State) :
    (sweep fsys pool live).1.length = pool.length ∧
    ∀ (i : Nat) (p : vm_pool_t), pool[i]? = some p →
      (i ∈ (sweep fsys pool live).2.2 ↔
        (p.state ≠ none ∧ p.status = 0 ∧
          ∃ (n : String) (fs : file_stat),
            p.name = some n ∧ fsys.stat n = some fs ∧ p.load < fs.st_mtime)) ∧
      (i ∈ (sweep fsys pool live).2.2 →
        (sweep fsys pool live).1[i]? = some ⟨0, none, none, 0⟩) ∧
      (i ∉ (sweep fsys pool live).2.2 → (sweep fsys pool live).1[i]? = some p) ∧
      (p.status ≠ 0 → (sweep fsys pool live).1[i]? = some p) := by
  refine ⟨sweep_from_length fsys pool 0 live, ?_⟩
  intro i p hp
  obtain ⟨h1, h2⟩ := (sweep_from_spec fsys pool 0 live).2 i p hp
  rw [Nat.zero_add] at h1
  unfold sweep
  refine ⟨h1.trans (stale_iff fsys p), ?_, ?_, ?_⟩
  · intro hmem
    rw [h2, if_pos (h1.1 hmem)]
    rfl
  · intro hmem
    have hns : ¬ stale fsys p = true := fun hs => hmem (h1.2 hs)
    rw [h2, if_neg hns]
  · intro hbusy
    have hns : ¬ stale fsys p = true := fun hs => hbusy ((stale_iff fsys p).1 hs).2.1
    rw [h2, if_neg hns]

/-- The theorem `C5_sweepStale` at a pool of three slots whose files all have
modification time 9: slot 0 (idle, loaded at 5) is flushed, slot 1 (busy,
loaded at 5) and slot 2 (idle, loaded at 9) are kept. -/
theorem C5_sweepStale_witness :
    (sweep ⟨fun _ => some ⟨true, 1, 9⟩, fun _ => true⟩
      [⟨0, some 0, some "a.ok", 5⟩, ⟨1, some 1, some "b.ok", 5⟩, ⟨0, some 2, some "c.ok", 9⟩]
      [0, 1, 2]).1[0]? = some ⟨0, none, none, 0⟩ ∧
    (sweep ⟨fun _ => some ⟨true, 1, 9⟩, fun _ => true⟩
      [⟨0, some 0, some "a.ok", 5⟩, ⟨1, some 1, some "b.ok", 5⟩, ⟨0, some 2, some "c.ok", 9⟩]
      [0, 1, 2]).1[1]? = some ⟨1, some 1, some "b.ok", 5⟩ :=
  ⟨((C5_sweepStale ⟨fun _ => some ⟨true, 1, 9⟩, fun _ => true⟩
      [⟨0, some 0, some "a.ok", 5⟩, ⟨1, some 1, some "b.ok", 5⟩, ⟨0, some 2, some "c.ok", 9⟩]
      [0, 1, 2]).2 0 ⟨0, some 0, some "a.ok", 5⟩ (by decide)).2.1 (by decide),
   ((C5_sweepStale ⟨fun _ => some ⟨true, 1, 9⟩, fun _ => true⟩
      [⟨0, some 0, some "a.ok", 5⟩, ⟨1, some 1, some "b.ok", 5⟩, ⟨0, some 2, some "c.ok", 9⟩]
      [0, 1, 2]).2 1 ⟨1, some 1, some "b.ok", 5⟩ (by decide)).2.2.2 (by decide)⟩


/-! ## The handler and the response -/

theorem strcpy_not_found :
    strcpy_errmsg (some "handler() function not found") = some "handler() function not found" := by
  decide

theorem strcpy_must_return :
    strcpy_errmsg (some "handler() must return string") = some "handler() must return string" := by
  decide

theorem lua_tostring_of_isstring (v : LuaValue) (h : lua_isstring v = true) :
    ∃ s, lua_tostring v = some s := by
  cases v <;> simp [lua_isstring] at h <;> simp [lua_tostring]

theorem handle_not_function (env : Env) (top : LuaValue)
    (hf : lua_isfunction env.handler = false) :
    handle env STATUS_OK top =
      some (Response.HTTP_500 errtype_t.LUA_ERRRUN_STR "handler() function not found") := by
  simp [handle, invoke, hf, respond, errmsg_of, errtype_of, lua_tostring, strcpy_not_found,
    STATUS_OK, LUA_ERRRUN, STATUS_404, LUA_ERRFILE]

theorem handle_not_string (env : Env) (top : LuaValue)
    (hf : lua_isfunction env.handler = true) (hs : lua_isstring env.call_top = false) :
    handle env STATUS_OK top =
      some (Response.HTTP_500 errtype_t.LUA_ERRRUN_STR "handler() must return string") := by
  simp [handle, invoke, hf, hs, respond, errmsg_of, errtype_of, lua_tostring,
    strcpy_must_return, STATUS_OK, LUA_ERRRUN, STATUS_404, LUA_ERRFILE]

theorem handle_returns (env : Env) (top : LuaValue) (s : String)
    (hf : lua_isfunction env.handler = true) (hs : lua_isstring env.call_top = true)
    (hrc : env.call_rc = STATUS_OK) (ht : lua_tostring env.call_top = some s) :
    handle env STATUS_OK top = some (Response.HTTP_200 s) := by
  simp [handle, invoke, hf, hs, hrc, ht, respond, errmsg_of, STATUS_OK, LUA_ERRRUN,
    LUA_ERRSYNTAX]

/-- The response after the handler is undefined exactly when the handler is a
function whose call fails with status `LUA_ERRRUN` (or `LUA_ERRSYNTAX`) and
leaves a string or number whose copy into `errmsg` is undefined. -/
theorem handle_none_iff (env : Env) (top : LuaValue) :
    handle env STATUS_OK top = none ↔
      (lua_isfunction env.handler = true ∧ lua_isstring env.call_top = true ∧
        (env.call_rc = LUA_ERRRUN ∨ env.call_rc = LUA_ERRSYNTAX) ∧
        strcpy_errmsg (lua_tostring env.call_top) = none) := by
  cases hf : lua_isfunction env.handler with
  | false => simp [handle_not_function env top hf]
  | true =>
    cases hs : lua_isstring env.call_top with
    | false => simp [handle_not_string env top hf hs]
    | true =>
      obtain ⟨s, ht⟩ := lua_tostring_of_isstring env.call_top hs
      by_cases hrc : env.call_rc = LUA_ERRRUN ∨ env.call_rc = LUA_ERRSYNTAX
      · cases hcp : strcpy_errmsg (lua_tostring env.call_top) with
        | none => simp [handle, invoke, hf, hs, respond, errmsg_of, hrc, hcp]
        | some m =>
          have hne : env.call_rc ≠ STATUS_OK := by
            rcases hrc with h | h <;> simp [h, LUA_ERRRUN, LUA_ERRSYNTAX, STATUS_OK]
          have hn404 : env.call_rc ≠ STATUS_404 := by
            rcases hrc with h | h <;> simp [h, LUA_ERRRUN, LUA_ERRSYNTAX, STATUS_404]
          simp [handle, invoke, hf, hs, respond, errmsg_of, hrc, hcp, hne, hn404]
      · by_cases hok : env.call_rc = STATUS_OK
        · simp [handle, invoke, hf, hs, respond, errmsg_of, hok, ht, STATUS_OK, LUA_ERRRUN,
            LUA_ERRSYNTAX]
        · by_cases h404 : env.call_rc = STATUS_404
          · simp [handle, invoke, hf, hs, respond, errmsg_of, h404, STATUS_404, STATUS_OK,
              LUA_ERRRUN, LUA_ERRSYNTAX]
          · simp [handle, invoke, hf, hs, respond, errmsg_of, hrc, hok, h404]

theorem handle_some_of_fits (env : Env) (top : LuaValue)
    (hfit : errmsg_of (invoke env).1 (invoke env).2 ≠ none) :
    ∃ resp, handle env STATUS_OK top = some resp := by
  cases h : handle env STATUS_OK top with
  | some resp => exact ⟨resp, rfl⟩
  | none =>
    obtain ⟨hf, hs, hrc, hcp⟩ := (handle_none_iff env top).1 h
    exfalso
    apply hfit
    simp [invoke, hf, hs, errmsg_of, hrc, hcp]

theorem handle_congr (env1 env2 : Env) (hs : env2.script = env1.script)
    (hh : env2.handler = env1.handler) (hr : env2.call_rc = env1.call_rc)
    (ht : env2.call_top = env1.call_top) :
    handle env2 STATUS_OK LuaValue.nil = handle env1 STATUS_OK LuaValue.nil := by
  simp [handle, invoke, hs, hh, hr, ht]

/-! ## One iteration of `worker` -/

theorem search_fst (script : Option String) (k : Int) (pool : List vm_pool_t) :
    (search script k pool).1 = (scan (search_match script) pool).1 :=
  (search_loop_eq_scan script (k - 1).toNat pool).1

theorem search_snd (script : Option String) (k : Int) (pool : List vm_pool_t) :
    (search script k pool).2.1 = (scan (search_match script) pool).2 :=
  (search_loop_eq_scan script (k - 1).toNat pool).2

theorem lock_unlock (p : vm_pool_t) (h : p.status = 0) : p.lock.unlock = p := by
  rcases p with ⟨st, state, name, load⟩
  simp only at h
  simp [vm_pool_t.lock, vm_pool_t.unlock, STATUS_OK, h]

theorem release_set (pool : List vm_pool_t) (i : Nat) (p q : vm_pool_t)
    (hp : pool[i]? = some p) : release i (pool.set i q) = pool.set i q.unlock := by
  have hi : i < pool.length := by
    rcases Nat.lt_or_ge i pool.length with h | h
    · exact h
    · rw [List.getElem?_eq_none h] at hp
      cases hp
  simp [release, set_slot, hi]

theorem set_same (pool : List vm_pool_t) (i : Nat) (p : vm_pool_t)
    (hp : pool[i]? = some p) : pool.set i p = pool := by
  apply List.ext_getElem?
  intro m
  by_cases hm : i = m
  · subst hm
    rw [hp]
    have hi : i < pool.length := by
      rcases Nat.lt_or_ge i pool.length with h | h
      · exact h
      · rw [List.getElem?_eq_none h] at hp
        cases hp
    simp [hi]
  · simp [List.getElem?_set, hm]

theorem load_rc_ok_file (env : Env) (hrc : load_rc env = STATUS_OK) :
    (script_load env.fsys env.script).isSome = true := by
  unfold load_rc at hrc
  cases hs : script_load env.fsys env.script with
  | none =>
    rw [hs] at hrc
    simp [STATUS_404, STATUS_OK] at hrc
  | some fs => rfl

theorem pool_load_zero (L : lua_State) (script : Option String) (now : Int) :
    pool_load vm_pool_t.zero L script now = ⟨0, some L, script, now⟩ := by
  cases script <;> rfl

/-- Lines 276-277 on a slot that the pick block has just marked: whatever the
slot held is closed, and the slot ends with the fresh state, the script name,
the time and a zero `status`. -/
theorem install_lock (pool : List vm_pool_t) (i : Nat) (p : vm_pool_t) (L : lua_State)
    (script : Option String) (now : Int) (live : List lua_State) (hp : pool[i]? = some p) :
    install i L script now (pool.set i p.lock) live =
      (pool.set i ⟨0, some L, script, now⟩, (pool_flush p live).2) := by
  have hi : i < pool.length := by
    rcases Nat.lt_or_ge i pool.length with h | h
    · exact h
    · rw [List.getElem?_eq_none h] at hp
      cases hp
  simp only [install, List.getElem?_set_self, hi, List.set_set]
  simp [pool_flush, pool_load_zero, hi, vm_pool_t.lock]

/-- A hit: the search marks the least matching slot and the dispatcher goes
on with `rc = STATUS_OK`. -/
theorem acquire_hit (conf : config_t) (fuel : Nat) (env : Env) (w : World) (p : vm_pool_t)
    (hlt : (scan (search_match env.script) w.pool).1 < w.pool.length)
    (hp : w.pool[(scan (search_match env.script) w.pool).1]? = some p) :
    acquire conf fuel env w =
      some (Acquire.ready
        { w with pool := w.pool.set (scan (search_match env.script) w.pool).1 p.lock }
        STATUS_OK (scan (search_match env.script) w.pool).1 LuaValue.nil) := by
  obtain ⟨q, hq, _, hset⟩ := scan_hit (search_match env.script) w.pool hlt
  rw [hp] at hq
  cases hq
  simp only [acquire, search_fst, search_snd, hlt, if_true]
  rw [hset]

/-- A miss whose load succeeds and whose pick block returns slot `i`: the
slot is flushed, receives the fresh state, the script name and the time, and
has a zero status from then on; the world is otherwise as it was. -/
theorem acquire_load (conf : config_t) (fuel : Nat) (env : Env) (w : World) (i : Nat)
    (p : vm_pool_t)
    (hmiss : (scan (search_match env.script) w.pool).1 = w.pool.length)
    (hopen : env.lua_open_ok = true) (hrc : load_rc env = STATUS_OK)
    (hp : w.pool[i]? = some p) (hpick : pick fuel w.pool = some (i, w.pool.set i p.lock)) :
    acquire conf fuel env w =
      some (Acquire.ready
        ⟨w.pool.set i ⟨0, some w.opened, env.script, env.now⟩,
          (pool_flush p (w.opened :: w.live)).2, w.opened + 1, w.reads + 1, w.compiles + 1⟩
        STATUS_OK i LuaValue.nil) := by
  have hinst := install_lock w.pool i p w.opened env.script env.now (w.opened :: w.live) hp
  simp only [acquire, search_fst, search_snd, hmiss, lt_irrefl, if_false, hopen,
    hrc, scan_miss (search_match env.script) w.pool hmiss, hpick, hinst,
    load_rc_ok_file env hrc, if_true, Bool.not_true, Bool.false_eq_true]

theorem iter_done (conf : config_t) (fuel : Nat) (env : Env) (w w1 : World) (rc : Int)
    (i : Nat) (top : LuaValue) (resp : Response)
    (hacq : acquire conf fuel env w = some (Acquire.ready w1 rc i top))
    (hresp : handle env rc top = some resp) :
    worker_iter conf fuel env w =
      some (IterResult.done { w1 with pool := release i w1.pool } resp i) := by
  simp [worker_iter, hacq, hresp]

theorem iter_crashed (conf : config_t) (fuel : Nat) (env : Env) (w w1 : World) (rc : Int)
    (i : Nat) (top : LuaValue)
    (hacq : acquire conf fuel env w = some (Acquire.ready w1 rc i top))
    (hresp : handle env rc top = none) :
    worker_iter conf fuel env w = some (IterResult.crashed w1 i) := by
  simp [worker_iter, hacq, hresp]

/-- A hit that can be answered: the iteration is complete, leaves the world as
it was and answers with the outcome of the handler. -/
theorem iter_hit (conf : config_t) (fuel : Nat) (env : Env) (w : World) (p : vm_pool_t)
    (resp : Response)
    (hlt : (scan (search_match env.script) w.pool).1 < w.pool.length)
    (hp : w.pool[(scan (search_match env.script) w.pool).1]? = some p)
    (hst : p.status = 0) (hresp : handle env STATUS_OK LuaValue.nil = some resp) :
    worker_iter conf fuel env w =
      some (IterResult.done w resp (scan (search_match env.script) w.pool).1) := by
  rw [iter_done conf fuel env w _ _ _ _ resp (acquire_hit conf fuel env w p hlt hp) hresp]
  simp only [release_set w.pool _ p p.lock hp, lock_unlock p hst, set_same w.pool _ p hp]

/-- A miss whose load succeeds, whose pick block returns slot `i` and that can
be answered: the iteration is complete and slot `i` holds the fresh state. -/
theorem iter_load (conf : config_t) (fuel : Nat) (env : Env) (w : World) (i : Nat)
    (p : vm_pool_t) (resp : Response)
    (hmiss : (scan (search_match env.script) w.pool).1 = w.pool.length)
    (hopen : env.lua_open_ok = true) (hrc : load_rc env = STATUS_OK)
    (hp : w.pool[i]? = some p) (hpick : pick fuel w.pool = some (i, w.pool.set i p.lock))
    (hresp : handle env STATUS_OK LuaValue.nil = some resp) :
    worker_iter conf fuel env w =
      some (IterResult.done
        ⟨w.pool.set i ⟨0, some w.opened, env.script, env.now⟩,
          (pool_flush p (w.opened :: w.live)).2, w.opened + 1, w.reads + 1, w.compiles + 1⟩
        resp i) := by
  rw [iter_done conf fuel env w _ _ _ _ resp
    (acquire_load conf fuel env w i p hmiss hopen hrc hp hpick) hresp]
  simp only [release_set w.pool i p _ hp]
  rfl

/-- A chunk that stops with an error value that is not a string (a table):
`lua_tostring` gives `NULL`, the `strcpy` of the `switch` is undefined and the
iteration is not complete. -/
theorem iter_crash_null :
    worker_iter default_conf 0 (Env.chunk_error "a.ok" LuaValue.table 9) (World.init 1) =
      some (IterResult.crashed ⟨[vm_pool_t.zero], [0], 1, 1, 1⟩ 1) := by
  decide

set_option maxRecDepth 100000 in
/-- A handler that stops with a message of 1024 bytes, on a hit: the `strcpy`
of the `switch` runs past the end of `errmsg` before the release, with slot 0
still marked busy. -/
theorem iter_crash_overflow :
    worker_iter default_conf 0 (Env.handler_error "a.ok" long_message 9)
        ⟨[⟨0, some 0, some "a.ok", 5⟩], [0], 1, 1, 1⟩ =
      some (IterResult.crashed ⟨[⟨STATUS_BUSY, some 0, some "a.ok", 5⟩], [0], 1, 1, 1⟩ 0) := by
  decide

/-! ## Cache hit -/

theorem scan_replicate_zero (cond : vm_pool_t → Bool) (n : Nat)
    (hc : cond vm_pool_t.zero = false) :
    (scan cond (List.replicate n vm_pool_t.zero)).1 = (List.replicate n vm_pool_t.zero).length := by
  induction n with
  | zero => simp [scan]
  | succ n ih =>
    simp only [List.replicate_succ, scan, hc, List.length_cons]
    simp [ih]

/-- Claim C6 (cache hit, amended). Starting from the all-empty pool of `n ≥ 1`
slots, take a request for the script `X` whose load succeeds and a second
request for `X`, such that in both the `switch` after the handler copies no
message whose `strcpy` into `errmsg` is undefined. Then the first iteration
is complete and leaves slot 0 occupied by the fresh engine, with name `X`,
load time `now` and not busy, every other slot empty, one state opened, one
file read and one chunk compiled. The second iteration is complete, is a hit
on slot 0 and leaves the whole world as it was: no `lua_open`, no
`script_load`, no `luaL_loadbuffer` (the counters are unchanged), and the
engine, name and load time of the slot are unchanged. Each response is the
one that the outcome of the handler yields in that iteration, and the second
is the same as the first whenever the `handler` global and the outcome of
calling it are the same as in the first iteration. -/
theorem C6_cache_hit (conf : config_t) (fuel1 fuel2 : Nat) (env1 env2 : Env) (w : World)
    (n : Nat) (X : String) (hn : 0 < n) (hw : w.pool = List.replicate n vm_pool_t.zero)
    (hX1 : env1.script = some X) (hopen : env1.lua_open_ok = true)
    (hload : load_rc env1 = STATUS_OK) (hX2 : env2.script = some X)
    (hfit1 : errmsg_of (invoke env1).1 (invoke env1).2 ≠ none)
    (hfit2 : errmsg_of (invoke env2).1 (invoke env2).2 ≠ none) :
    ∃ w1 resp1 resp2,
      handle env1 STATUS_OK LuaValue.nil = some resp1 ∧
      handle env2 STATUS_OK LuaValue.nil = some resp2 ∧
      worker_iter conf fuel1 env1 w = some (IterResult.done w1 resp1 0) ∧
      w1 = ⟨⟨0, some w.opened, some X, env1.now⟩ :: List.replicate (n - 1) vm_pool_t.zero,
        w.opened :: w.live, w.opened + 1, w.reads + 1, w.compiles + 1⟩ ∧
      w1.pool[0]? = some ⟨0, some w.opened, some X, env1.now⟩ ∧
      worker_iter conf fuel2 env2 w1 = some (IterResult.done w1 resp2 0) ∧
      (env2.handler = env1.handler → env2.call_rc = env1.call_rc →
        env2.call_top = env1.call_top → resp2 = resp1) := by
  obtain ⟨k, rfl⟩ : ∃ k, n = k + 1 := ⟨n - 1, by omega⟩
  obtain ⟨resp1, hresp1⟩ := handle_some_of_fits env1 LuaValue.nil hfit1
  obtain ⟨resp2, hresp2⟩ := handle_some_of_fits env2 LuaValue.nil hfit2
  have hmiss : (scan (search_match env1.script) w.pool).1 = w.pool.length := by
    rw [hw]
    exact scan_replicate_zero _ _ (by simp [search_match, vm_pool_t.zero, vm_pool_t.occupied])
  have hp : w.pool[0]? = some vm_pool_t.zero := by simp [hw, List.replicate_succ]
  have hpick : pick fuel1 w.pool = some (0, w.pool.set 0 vm_pool_t.zero.lock) := by
    rw [hw]
    simp [pick, List.replicate_succ, scan, free_spot, vm_pool_t.zero, vm_pool_t.busy,
      vm_pool_t.occupied]
  have h1 := iter_load conf fuel1 env1 w 0 vm_pool_t.zero resp1 hmiss hopen hload hp hpick hresp1
  have hpool1 : w.pool.set 0 ⟨0, some w.opened, env1.script, env1.now⟩ =
      ⟨0, some w.opened, some X, env1.now⟩ :: List.replicate k vm_pool_t.zero := by
    simp [hw, List.replicate_succ, hX1]
  have hlive : (pool_flush vm_pool_t.zero (w.opened :: w.live)).2 = w.opened :: w.live := rfl
  rw [hpool1, hlive] at h1
  have hscan : (scan (search_match env2.script)
      (⟨0, some w.opened, some X, env1.now⟩ :: List.replicate k vm_pool_t.zero)).1 = 0 := by
    simp [scan, search_match, vm_pool_t.occupied, vm_pool_t.busy, hX2]
  have h2 := iter_hit conf fuel2 env2
    ⟨⟨0, some w.opened, some X, env1.now⟩ :: List.replicate k vm_pool_t.zero,
      w.opened :: w.live, w.opened + 1, w.reads + 1, w.compiles + 1⟩
    ⟨0, some w.opened, some X, env1.now⟩ resp2
    (by rw [hscan]; simp) (by rw [hscan]; simp) rfl hresp2
  rw [hscan] at h2
  refine ⟨_, resp1, resp2, hresp1, hresp2, h1, by simp, by simp, h2, ?_⟩
  intro hh hr ht
  have hc := handle_congr env1 env2 (by rw [hX1, hX2]) hh hr ht
  rw [hresp1, hresp2] at hc
  exact Option.some.inj hc

/-- The theorem `C6_cache_hit` at scenarios S1 then S2: a pool of one empty
slot and two requests for `a.ok` whose handler returns `"hi"`. -/
theorem C6_cache_hit_witness :
    worker_iter default_conf 0 (Env.serving "a.ok" (LuaValue.string "hi") 5) (World.init 1) =
      some (IterResult.done ⟨[⟨0, some 0, some "a.ok", 5⟩], [0], 1, 1, 1⟩
        (Response.HTTP_200 "hi") 0) ∧
    worker_iter default_conf 0 (Env.serving "a.ok" (LuaValue.string "hi") 6)
        ⟨[⟨0, some 0, some "a.ok", 5⟩], [0], 1, 1, 1⟩ =
      some (IterResult.done ⟨[⟨0, some 0, some "a.ok", 5⟩], [0], 1, 1, 1⟩
        (Response.HTTP_200 "hi") 0) := by
  obtain ⟨w1, resp1, resp2, hr1, _, h1, hw1, _, h2, hsame⟩ :=
    C6_cache_hit default_conf 0 0 (Env.serving "a.ok" (LuaValue.string "hi") 5)
      (Env.serving "a.ok" (LuaValue.string "hi") 6) (World.init 1) 1 "a.ok"
      (by decide) rfl rfl rfl (by decide) rfl (by decide) (by decide)
  have hresp1 : resp1 = Response.HTTP_200 "hi" := by
    have : handle (Env.serving "a.ok" (LuaValue.string "hi") 5) STATUS_OK LuaValue.nil =
        some (Response.HTTP_200 "hi") := by decide
    rw [this] at hr1
    exact (Option.some.inj hr1).symm
  have hresp2 : resp2 = Response.HTTP_200 "hi" := (hsame rfl rfl rfl).trans hresp1
  subst hresp1 hresp2 hw1
  exact ⟨h1, h2⟩

set_option maxRecDepth 100000 in
/-- Claim C6, the claim as stated fails. (1) A pool of one empty slot, a
request for `a.ok` whose load succeeds and whose handler returns `"1"`, then a
request for `a.ok` served by the same engine, whose handler (a script that
keeps a counter in its state) now returns `"2"`: the second iteration is a hit
on slot 0 that leaves the world as it was, yet the two responses differ.
(2) A request for `a.ok` whose load succeeds and whose handler stops with a
message of 1024 bytes: the `strcpy` into `errmsg` is undefined and the
iteration is not complete. -/
theorem C6_cache_hit_counterexample :
    (worker_iter default_conf 0 (Env.serving "a.ok" (LuaValue.string "1") 5) (World.init 1) =
        some (IterResult.done ⟨[⟨0, some 0, some "a.ok", 5⟩], [0], 1, 1, 1⟩
          (Response.HTTP_200 "1") 0) ∧
      worker_iter default_conf 0 (Env.serving "a.ok" (LuaValue.string "2") 6)
          ⟨[⟨0, some 0, some "a.ok", 5⟩], [0], 1, 1, 1⟩ =
        some (IterResult.done ⟨[⟨0, some 0, some "a.ok", 5⟩], [0], 1, 1, 1⟩
          (Response.HTTP_200 "2") 0) ∧
      Response.HTTP_200 "2" ≠ Response.HTTP_200 "1") ∧
    worker_iter default_conf 0 (Env.handler_error "a.ok" long_message 5) (World.init 1) =
      some (IterResult.crashed ⟨[⟨0, some 0, some "a.ok", 5⟩], [0], 1, 1, 1⟩ 0) := by
  refine ⟨⟨by decide, by decide, by decide⟩, by decide⟩

/-! ## The handler contract -/

/-- Claim C7 (handler contract, amended). For every engine reserved with
outcome `STATUS_OK`, the iteration ends either complete, with the slot
released and a response, or in the undefined `strcpy` of an error message.
It is complete with: a success response with body `s` when `handler` is a
function that returns the string `s`; a success response with the text of
the number when it returns a number (`lua_isstring` accepts numbers); a
`LUA_ERRRUN` failure with message `"handler() function not found"` when the
global `handler` is not a function; and a `LUA_ERRRUN` failure with message
`"handler() must return string"` when the call leaves a value that is neither
a string nor a number (a table, `nil`, a boolean). -/
theorem C7_handler_contract (conf : config_t) (fuel : Nat) (env : Env) (w w1 : World)
    (i : Nat) (top : LuaValue)
    (hacq : acquire conf fuel env w = some (Acquire.ready w1 STATUS_OK i top)) :
    ∃ r,
      worker_iter conf fuel env w = some r ∧
      (r = IterResult.crashed w1 i ∨
        ∃ resp, r = IterResult.done { w1 with pool := release i w1.pool } resp i) ∧
      (∀ s, lua_isfunction env.handler = true → env.call_rc = STATUS_OK →
        env.call_top = LuaValue.string s →
        r = IterResult.done { w1 with pool := release i w1.pool } (Response.HTTP_200 s) i) ∧
      (∀ t, lua_isfunction env.handler = true → env.call_rc = STATUS_OK →
        env.call_top = LuaValue.number t →
        r = IterResult.done { w1 with pool := release i w1.pool } (Response.HTTP_200 t) i) ∧
      (lua_isfunction env.handler = false →
        r = IterResult.done { w1 with pool := release i w1.pool }
          (Response.HTTP_500 errtype_t.LUA_ERRRUN_STR "handler() function not found") i) ∧
      (lua_isfunction env.handler = true → lua_isstring env.call_top = false →
        r = IterResult.done { w1 with pool := release i w1.pool }
          (Response.HTTP_500 errtype_t.LUA_ERRRUN_STR "handler() must return string") i) := by
  cases hh : handle env STATUS_OK top with
  | none =>
    refine ⟨_, iter_crashed conf fuel env w w1 STATUS_OK i top hacq hh, Or.inl rfl, ?_, ?_, ?_, ?_⟩
    · intro s hf hrc htop
      rw [handle_returns env top s hf (by simp [htop, lua_isstring]) hrc
        (by simp [htop, lua_tostring])] at hh
      cases hh
    · intro t hf hrc htop
      rw [handle_returns env top t hf (by simp [htop, lua_isstring]) hrc
        (by simp [htop, lua_tostring])] at hh
      cases hh
    · intro hf
      rw [handle_not_function env top hf] at hh
      cases hh
    · intro hf hs
      rw [handle_not_string env top hf hs] at hh
      cases hh
  | some resp =>
    refine ⟨_, iter_done conf fuel env w w1 STATUS_OK i top resp hacq hh, Or.inr ⟨resp, rfl⟩,
      ?_, ?_, ?_, ?_⟩
    · intro s hf hrc htop
      rw [handle_returns env top s hf (by simp [htop, lua_isstring]) hrc
        (by simp [htop, lua_tostring])] at hh
      cases hh
      rfl
    · intro t hf hrc htop
      rw [handle_returns env top t hf (by simp [htop, lua_isstring]) hrc
        (by simp [htop, lua_tostring])] at hh
      cases hh
      rfl
    · intro hf
      rw [handle_not_function env top hf] at hh
      cases hh
      rfl
    · intro hf hs
      rw [handle_not_string env top hf hs] at hh
      cases hh
      rfl

/-- The theorem `C7_handler_contract` at scenario S1: the all-empty pool of
one slot and a request for `a.ok` whose handler returns `"hi"`; the response
is a success with body `"hi"`. -/
theorem C7_handler_contract_witness :
    worker_iter default_conf 0 (Env.serving "a.ok" (LuaValue.string "hi") 5) (World.init 1) =
      some (IterResult.done ⟨[⟨0, some 0, some "a.ok", 5⟩], [0], 1, 1, 1⟩
        (Response.HTTP_200 "hi") 0) := by
  obtain ⟨r, hiter, _, hstr, _, _, _⟩ :=
    C7_handler_contract default_conf 0 (Env.serving "a.ok" (LuaValue.string "hi") 5)
      (World.init 1) ⟨[⟨0, some 0, some "a.ok", 5⟩], [0], 1, 1, 1⟩ 0 LuaValue.nil (by decide)
  rw [hiter, hstr "hi" rfl rfl rfl]
  decide

/-- Claim C7, the claim as stated fails. On a pool whose slot 0 holds `a.ok`
idle, a request for `a.ok`: (1) when the script defines no `handler` the
message is `"handler() function not found"`, not `"handler not found"`;
(2) when the handler returns a table the message is `"handler() must return
string"`, not `"handler must return string"`; (3) when the handler returns
the number 42 the response is a success with body `"42"`, not a failure. -/
theorem C7_handler_contract_counterexample :
    (worker_iter default_conf 0 (Env.no_handler "a.ok" 9)
        ⟨[⟨0, some 0, some "a.ok", 5⟩], [0], 1, 1, 1⟩ =
      some (IterResult.done ⟨[⟨0, some 0, some "a.ok", 5⟩], [0], 1, 1, 1⟩
        (Response.HTTP_500 errtype_t.LUA_ERRRUN_STR "handler() function not found") 0) ∧
      Response.HTTP_500 errtype_t.LUA_ERRRUN_STR "handler() function not found" ≠
        Response.HTTP_500 errtype_t.LUA_ERRRUN_STR "handler not found") ∧
    (worker_iter default_conf 0 (Env.serving "a.ok" LuaValue.table 9)
        ⟨[⟨0, some 0, some "a.ok", 5⟩], [0], 1, 1, 1⟩ =
      some (IterResult.done ⟨[⟨0, some 0, some "a.ok", 5⟩], [0], 1, 1, 1⟩
        (Response.HTTP_500 errtype_t.LUA_ERRRUN_STR "handler() must return string") 0) ∧
      Response.HTTP_500 errtype_t.LUA_ERRRUN_STR "handler() must return string" ≠
        Response.HTTP_500 errtype_t.LUA_ERRRUN_STR "handler must return string") ∧
    worker_iter default_conf 0 (Env.serving "a.ok" (LuaValue.number "42") 9)
        ⟨[⟨0, some 0, some "a.ok", 5⟩], [0], 1, 1, 1⟩ =
      some (IterResult.done ⟨[⟨0, some 0, some "a.ok", 5⟩], [0], 1, 1, 1⟩
        (Response.HTTP_200 "42") 0) := by
  refine ⟨⟨by decide, by decide⟩, ⟨by decide, by decide⟩, by decide⟩

/-! ## Where the code departs from the claims -/

/-- Claim C1 (mutual exclusion), the code at the failing input: a pool of one
slot and two dispatchers that both ask for `a.ok`. Dispatcher 0 misses (two
scans), loads, picks slot 0 and installs its state; the `memset` of
`pool_flush` has cleared the `status` it had just set, so the scan of
dispatcher 1 hits slot 0 while dispatcher 0 has not released it: two
dispatchers have slot 0 reserved at once. -/
theorem C1_mutual_exclusion_broken :
    ∃ s, run default_conf
        [Action.accept 0 (some "a.ok"), Action.scan 0, Action.scan 0, Action.load 0 true,
          Action.pick 0, Action.install 0 5, Action.accept 1 (some "a.ok"), Action.scan 1]
        (Sys.init 1 2) = some s ∧
      s.pcs = [PC.using 0, PC.using 0] ∧ s.holders 0 = 2 :=
  ⟨⟨[⟨1, some 0, some "a.ok", 5⟩], [0], 1, [PC.using 0, PC.using 0]⟩, by decide, rfl, by decide⟩

/-- Claim C2 (miss path install), the code at the failing input of scenario S4:
a pool of one slot that holds `a.ok` idle, a fresh state 1 for `b.ok` at time
9. The pick block marks slot 0 busy; after `pool_flush` and `pool_load` the
slot holds state 1, name `b.ok` and load time 9, and its `status` is 0: the
`memset` of `pool_flush` has cleared the busy flag. -/
theorem C2_install_clears_busy :
    pick 0 [⟨0, some 0, some "a.ok", 5⟩] = some (0, [⟨STATUS_BUSY, some 0, some "a.ok", 5⟩]) ∧
    install 0 1 (some "b.ok") 9 [⟨STATUS_BUSY, some 0, some "a.ok", 5⟩] [1, 0] =
      ([⟨0, some 1, some "b.ok", 9⟩], [1]) ∧
    (0 : Int) ≠ STATUS_BUSY := by
  refine ⟨by decide, by decide, by decide⟩

/-- Whatever the configuration file sets, the configuration that
`config_load` returns has `retries = 1`. -/
theorem config_load_retries (LISTEN_PATH : String) (fsys : FileSys) (lua : ConfigScript)
    (fn : Option String) (cf : config_t)
    (h : config_load LISTEN_PATH fsys lua fn = some cf) : cf.retries = 1 := by
  unfold config_load at h
  cases hs : script_load fsys fn with
  | none =>
    rw [hs] at h
    simp only [Option.some.injEq] at h
    rw [← h]
  | some fs =>
    rw [hs] at h
    by_cases hopen : lua.lua_open_ok = true
    · by_cases hrc : lua.rc = STATUS_OK
      · simp only [hopen, hrc, Bool.not_true, Bool.false_eq_true, if_false, if_true,
          Option.some.injEq] at h
        rw [← h]
      · simp only [hopen, hrc, Bool.not_true, Bool.false_eq_true, if_false,
          Option.some.injEq] at h
        rw [← h]
    · simp [hopen] at h

/-- Claim C8 (configured retries), the code at the failing input: a
configuration file that sets `retries = 0`. `config_load` does not transfer
the global, the configuration keeps `retries = 1`, and a search that misses
on the pool of five empty slots performs two scans, not one. -/
theorem C8_retries_not_transferred :
    ∃ cf, config_load "" fs_all (config_with_retries 0) (some "config.lua") = some cf ∧
      cf.retries = 1 ∧
      (search (some "a.ok") (cf.retries + 1) (List.replicate 5 vm_pool_t.zero)).1 = 5 ∧
      (search (some "a.ok") (cf.retries + 1) (List.replicate 5 vm_pool_t.zero)).2.2 = 2 :=
  ⟨⟨"", 3, 5, 1000, 1⟩, by decide, rfl, by decide, by decide⟩

/-- Claim C10 (engine lifecycle), the code at the failing input: the all-empty
pool of one slot and a request for `a.ok` when no such file exists. The
iteration opens Lua state 0, answers not-found, and ends with state 0 still
open while no slot holds it. -/
theorem C10_engine_leak :
    ∃ w1, worker_iter default_conf 0 (Env.no_file "a.ok" 5) (World.init 1) =
        some (IterResult.done w1 (Response.HTTP_404 (some "a.ok")) 1) ∧
      w1.live = [0] ∧ engines w1.pool = [] :=
  ⟨⟨[vm_pool_t.zero], [0], 1, 1, 0⟩, by decide, rfl, by decide⟩


end Luafcgid
